import Mathlib

/-!
Verification of the ogn-lib APRS client/decoder library.

Python strings are modelled as `List Char`; Python `int(...)`, `float(...)`
and `int(..., 16)` as `Option`-valued parsers; Python exceptions as
`Except`/`Option` failure values.  Each definition mirrors one function of
`ogn_lib/parser.py`, `ogn_lib/client.py` or `ogn_lib/exceptions.py`; the few
pieces of the repository that are referenced but absent from the source tree
(the default-decoder fallback and the `constants` enumerations) are modelled
from the specification and marked as such in their doc comments.
-/

/-- Python strings are modelled as lists of characters. -/
abbrev Str := List Char

namespace PyStr

/-- Value of an ASCII decimal digit character, `none` for non-digits. -/
def digitVal? (c : Char) : Option Nat :=
  if '0' ≤ c ∧ c ≤ '9' then some (c.toNat - '0'.toNat) else none

/-- Value of an ASCII hexadecimal digit character, `none` otherwise. -/
def hexVal? (c : Char) : Option Nat :=
  if '0' ≤ c ∧ c ≤ '9' then some (c.toNat - '0'.toNat)
  else if 'a' ≤ c ∧ c ≤ 'f' then some (c.toNat - 'a'.toNat + 10)
  else if 'A' ≤ c ∧ c ≤ 'F' then some (c.toNat - 'A'.toNat + 10)
  else none

/-- Python `int(s)` restricted to unsigned decimal digit strings:
succeeds exactly on non-empty all-digit strings. -/
def pyNat? (s : Str) : Option Nat :=
  if s = [] then none
  else s.foldlM (fun acc c => (digitVal? c).map (fun d => acc * 10 + d)) 0

/-- Python `int(s)`: an optional sign followed by a non-empty digit string. -/
def pyInt? : Str → Option Int
  | '-' :: rest => (pyNat? rest).map (fun n => -(n : Int))
  | '+' :: rest => (pyNat? rest).map (fun n => (n : Int))
  | s => (pyNat? s).map (fun n => (n : Int))

/-- Python `int(s, 16)` restricted to unsigned hex digit strings. -/
def pyHex? (s : Str) : Option Nat :=
  if s = [] then none
  else s.foldlM (fun acc c => (hexVal? c).map (fun d => acc * 16 + d)) 0

/-- Python `float(s)` restricted to the decimal literals occurring in APRS
fields: optional sign, then digits with at most one decimal point
(`"5"`, `"5."`, `".5"`, `"0.0"`, ...); the value is returned exactly, as a
rational. -/
def pyDecCore? (s : Str) : Option ℚ :=
  match s.span (fun c => c ≠ '.') with
  | (ip, []) => (pyNat? ip).map (fun n => (n : ℚ))
  | (ip, _ :: fp) =>
    if ip = [] ∧ fp = [] then none
    else if fp.any (fun c => c = '.') then none
    else do
      let ipv ← if ip = [] then some 0 else pyNat? ip
      let fpv ← if fp = [] then some 0 else pyNat? fp
      some ((ipv : ℚ) + (fpv : ℚ) / (10 : ℚ) ^ fp.length)

/-- Python `float(s)` with an optional leading sign. -/
def pyDec? : Str → Option ℚ
  | '-' :: rest => (pyDecCore? rest).map (fun q => -q)
  | '+' :: rest => pyDecCore? rest
  | s => pyDecCore? s

/-- Python `s.split(sep, 1)` for a single-character separator, reported as
`none` when the separator does not occur (so that tuple destructuring of the
result in the source raises there). -/
def splitFirst (c : Char) : Str → Option (Str × Str)
  | [] => none
  | x :: rest =>
    if x = c then some ([], rest)
    else (splitFirst c rest).map (fun p => (x :: p.1, p.2))

/-- First component of Python `s.split(c, 1)`: the prefix before the first
occurrence of `c`, or all of `s` when `c` does not occur. -/
def takeUntil (c : Char) (s : Str) : Str :=
  match splitFirst c s with
  | some (a, _) => a
  | none => s

/-- Python `s.split(c)` for a single-character separator. -/
def pySplitChar (c : Char) : Str → List Str
  | [] => [[]]
  | x :: rest =>
    if x = c then [] :: pySplitChar c rest
    else (pySplitChar c rest).modifyHead (fun t => x :: t)

/-- Python `s.split(c0 ++ c1)` for a two-character separator (the only
multi-character separators in the source are `", "` and `"A="`):
non-overlapping occurrences, scanned left to right. -/
def pySplitSub2 (c0 c1 : Char) : Str → List Str
  | [] => [[]]
  | [x] => [[x]]
  | x :: y :: rest =>
    if x = c0 ∧ y = c1 then [] :: pySplitSub2 c0 c1 rest
    else (pySplitSub2 c0 c1 (y :: rest)).modifyHead (fun t => x :: t)

/-- Python `s.replace(c0 ++ c1, "")`: all non-overlapping occurrences of the
two-character separator removed. -/
def removeSub2 (c0 c1 : Char) (s : Str) : Str :=
  (pySplitSub2 c0 c1 s).foldl (fun acc part => acc ++ part) []

/-- Python `s.strip(ch)`: the given character removed from both ends. -/
def pyStrip (ch : Char) (s : Str) : Str :=
  ((s.dropWhile (fun c => c = ch)).reverse.dropWhile (fun c => c = ch)).reverse

/-- Python `s.startswith(pre)`. -/
def startsW (pre s : Str) : Bool := pre.isPrefixOf s

/-- Python `s.endswith(suf)`. -/
def endsW (suf s : Str) : Bool := suf.isSuffixOf s

/-- Python `s[:-n]`: all but the last `n` characters. -/
def dropRight (n : Nat) (s : Str) : Str := s.take (s.length - n)

theorem splitFirst_append {c : Char} {a : Str} (b : Str) (ha : c ∉ a) :
    splitFirst c (a ++ c :: b) = some (a, b) := by
  induction a with
  | nil => simp [splitFirst]
  | cons x xs ih =>
    simp only [List.mem_cons, not_or] at ha
    simp [splitFirst, ha.1, Ne.symm ha.1, ih ha.2]

theorem splitFirst_none {c : Char} {s : Str} (h : c ∉ s) :
    splitFirst c s = none := by
  induction s with
  | nil => rfl
  | cons x xs ih =>
    simp only [List.mem_cons, not_or] at h
    simp [splitFirst, h.1, Ne.symm h.1, ih h.2]

theorem takeUntil_append {c : Char} {a : Str} (b : Str) (ha : c ∉ a) :
    takeUntil c (a ++ c :: b) = a := by
  simp [takeUntil, splitFirst_append b ha]

theorem takeUntil_of_not_mem {c : Char} {s : Str} (h : c ∉ s) :
    takeUntil c s = s := by
  simp [takeUntil, splitFirst_none h]

theorem pySplitChar_single {c : Char} {a : Str} (ha : c ∉ a) :
    pySplitChar c a = [a] := by
  induction a with
  | nil => rfl
  | cons x xs ih =>
    simp only [List.mem_cons, not_or] at ha
    rw [pySplitChar, if_neg (Ne.symm ha.1), ih ha.2]
    rfl

theorem pySplitChar_cons {c : Char} {a : Str} (rest : Str) (ha : c ∉ a) :
    pySplitChar c (a ++ c :: rest) = a :: pySplitChar c rest := by
  induction a with
  | nil => simp [pySplitChar]
  | cons x xs ih =>
    simp only [List.mem_cons, not_or] at ha
    rw [List.cons_append, pySplitChar, if_neg (Ne.symm ha.1), ih ha.2]
    rfl

theorem pySplitSub2_no_occ {c0 : Char} (c1 : Char) {s : Str} (h : c0 ∉ s) :
    pySplitSub2 c0 c1 s = [s] := by
  induction s with
  | nil => rfl
  | cons x xs ih =>
    simp only [List.mem_cons, not_or] at h
    match xs, ih with
    | [], _ => rfl
    | y :: ys, ih =>
      rw [pySplitSub2, if_neg (fun hand => h.1 hand.1.symm), ih h.2]
      rfl

theorem pySplitSub2_append {c0 c1 : Char} {a : Str} (b : Str) (ha : c0 ∉ a) :
    pySplitSub2 c0 c1 (a ++ c0 :: c1 :: b) = a :: pySplitSub2 c0 c1 b := by
  induction a with
  | nil => simp [pySplitSub2]
  | cons x xs ih =>
    simp only [List.mem_cons, not_or] at ha
    rw [List.cons_append]
    match hxs : xs ++ c0 :: c1 :: b, ih ha.2 with
    | [], ih' => simp at hxs
    | y :: ys, ih' =>
      rw [pySplitSub2, if_neg (fun hand => ha.1 hand.1.symm), ih']
      rfl

theorem startsW_append (p t : Str) : startsW p (p ++ t) = true :=
  List.isPrefixOf_iff_prefix.2 ⟨t, rfl⟩

end PyStr

open PyStr

/-! ## The decoder registry (`ParserBase`, parser.py lines 19-74) -/

/-- Identities of the classes created with the `ParserBase` metaclass:
the three classes defined in `ogn_lib/parser.py` plus arbitrary
user-defined subclasses. -/
inductive PClass where
  | Parser
  | APRS
  | Naviter
  | Custom (name : Str)
deriving DecidableEq

/-- The process-wide `ParserBase.parsers` dictionary: an insertion-ordered
association list with Python-dict assignment semantics. -/
abbrev Registry := List (Str × PClass)

/-- Python `parsers[k] = v`: replace in place or append. -/
def dictInsert (k : Str) (v : PClass) : Registry → Registry
  | [] => [(k, v)]
  | (k', v') :: rest =>
    if k' = k then (k, v) :: rest else (k', v') :: dictInsert k v rest

/-- Python `parsers[k]` (as an `Option`; a miss raises `KeyError`). -/
def dictLookup (k : Str) : Registry → Option PClass
  | [] => none
  | (k', v') :: rest => if k' = k then some v' else dictLookup k rest

/-- The possible values of the `__destto__` entry of a class dict:
a string, a sequence of strings, absent, or anything else
(`None`, an integer, ...). -/
inductive DesttoAttr where
  | str (s : Str)
  | seq (l : List Str)
  | absent
  | other
deriving DecidableEq

/-- `ParserBase.__new__` (parser.py lines 26-48): the class being created is
registered in `ParserBase.parsers` under its `__destto__` callsigns — under
the class name when `__destto__` is absent — and a `TypeError` is raised
(registering nothing) when `__destto__` is neither a string nor a sequence. -/
def parserBaseNew (name : Str) (destto : DesttoAttr) (class_ : PClass)
    (parsers : Registry) : Except Unit Registry :=
  match destto with
  | .absent => .ok (dictInsert name class_ parsers)
  | .str s => .ok (dictInsert s class_ parsers)
  | .seq l => .ok (l.foldl (fun r c => dictInsert c class_ r) parsers)
  | .other => .error ()

/-- The registry after importing `ogn_lib.parser`: the class bodies of
`Parser` (no `__destto__`), `APRS` (`__destto__ = 'APRS'`) and `Naviter`
(`__destto__ = ['OGNAVI', 'OGNAVI-1']`) are executed in order. -/
def moduleRegistry : Registry :=
  match parserBaseNew ("Parser".toList) .absent .Parser [] with
  | .error _ => []
  | .ok r1 =>
    match parserBaseNew ("APRS".toList) (.str ("APRS".toList)) .APRS r1 with
    | .error _ => r1
    | .ok r2 =>
      match parserBaseNew ("Naviter".toList)
          (.seq ["OGNAVI".toList, "OGNAVI-1".toList]) .Naviter r2 with
      | .error _ => r2
      | .ok r3 => r3

theorem dictLookup_insert_self (k : Str) (v : PClass) (r : Registry) :
    dictLookup k (dictInsert k v r) = some v := by
  induction r with
  | nil => simp [dictInsert, dictLookup]
  | cons p rest ih =>
    by_cases h : p.1 = k
    · simp [dictInsert, dictLookup, h]
    · simp [dictInsert, dictLookup, h, ih]

theorem dictLookup_foldl_not_mem {k : Str} {l : List Str} (v : PClass)
    (r : Registry) (h : k ∉ l) :
    dictLookup k (l.foldl (fun r c => dictInsert c v r) r) = dictLookup k r := by
  induction l generalizing r with
  | nil => rfl
  | cons x xs ih =>
    simp only [List.mem_cons, not_or] at h
    rw [List.foldl_cons, ih _ h.2]
    clear ih
    induction r with
    | nil => simp [dictInsert, dictLookup, Ne.symm h.1]
    | cons p rest ihr =>
      by_cases hp : p.1 = x
      · simp [dictInsert, dictLookup, hp, Ne.symm h.1]
      · simp [dictInsert, dictLookup, hp, ihr]

theorem dictLookup_foldl_mem {k : Str} {l : List Str} (v : PClass)
    (r : Registry) (h : k ∈ l) :
    dictLookup k (l.foldl (fun r c => dictInsert c v r) r) = some v := by
  induction l generalizing r with
  | nil => cases h
  | cons x xs ih =>
    rw [List.foldl_cons]
    by_cases hx : k ∈ xs
    · exact ih _ hx
    · have hk : k = x := by
        rcases List.mem_cons.1 h with h' | h'
        · exact h'
        · exact absurd h' hx
      rw [dictLookup_foldl_not_mem v _ hx, hk, dictLookup_insert_self]

/-- Claim C10: creating any class with the `ParserBase` metaclass mutates the
registry at class-definition time — a string `__destto__` registers the class
under that token, a sequence registers it under every element, an absent
`__destto__` registers it under the class name (so the module-level import
leaves the base `Parser` class registered under the token `"Parser"`), and
any other value raises `TypeError` and registers nothing. -/
theorem parserBase_new_registration :
    (∀ (name s : Str) (c : PClass) (reg : Registry), ∃ reg',
        parserBaseNew name (.str s) c reg = .ok reg' ∧
        dictLookup s reg' = some c)
  ∧ (∀ (name : Str) (l : List Str) (c : PClass) (reg : Registry), ∃ reg',
        parserBaseNew name (.seq l) c reg = .ok reg' ∧
        ∀ k, k ∈ l → dictLookup k reg' = some c)
  ∧ (∀ (name : Str) (c : PClass) (reg : Registry), ∃ reg',
        parserBaseNew name .absent c reg = .ok reg' ∧
        dictLookup name reg' = some c)
  ∧ (∀ (name : Str) (c : PClass) (reg : Registry),
        parserBaseNew name .other c reg = .error ())
  ∧ dictLookup ("Parser".toList) moduleRegistry = some .Parser
  ∧ dictLookup ("OGNAVI".toList) moduleRegistry = some .Naviter := by
  refine ⟨?_, ?_, ?_, ?_, ?_, ?_⟩
  · intro name s c reg
    exact ⟨_, rfl, dictLookup_insert_self s c reg⟩
  · intro name l c reg
    exact ⟨_, rfl, fun k hk => dictLookup_foldl_mem c reg hk⟩
  · intro name c reg
    exact ⟨_, rfl, dictLookup_insert_self name c reg⟩
  · intro name c reg
    rfl
  · decide
  · decide

/-- Witness for Claim C10: the sequence case of `parserBase_new_registration`
applied to `Naviter`'s literal `__destto__` list settles the token
`"OGNAVI-1"` concretely. -/
theorem parserBase_new_registration_witness :
    ∃ reg', parserBaseNew ("Naviter".toList)
        (.seq ["OGNAVI".toList, "OGNAVI-1".toList]) .Naviter [] = .ok reg' ∧
      dictLookup ("OGNAVI-1".toList) reg' = some .Naviter := by
  obtain ⟨reg', hok, hall⟩ :=
    parserBase_new_registration.2.1 ("Naviter".toList)
      ["OGNAVI".toList, "OGNAVI-1".toList] .Naviter []
  exact ⟨reg', hok, hall _ (by simp)⟩

/-- Errors of `ParserBase.__call__`: the `ValueError` from destructuring
`raw_message.split('>', 1)` when no `'>'` occurs, and
`ogn_lib.exceptions.ParserNotFoundError`. -/
inductive CallError where
  | valueError
  | parserNotFound
deriving DecidableEq

/-- The state of the `ParserBase` metaclass used by dispatch.

Modelled from the spec: the designated default decoder is referenced by the
repository's tests (`ParserBase.default`, `__default__ = True`) but its
implementation is absent from src/ (`ParserBase.__call__` there only raises
on a lookup miss, i.e. behaves as the `dflt = none` instance of this model);
per spec 4.1 a lookup miss falls back to the default decoder when one is
set and fails with `ParserNotFoundError` otherwise. -/
structure ParserBaseState where
  parsers : Registry
  dflt : Option PClass
deriving DecidableEq

/-- `ParserBase.__call__` (parser.py lines 50-74): the origin is split off at
the first `'>'`, the destination token is the remainder up to the first
`','`, and the registered decoder's `parse_message` is invoked with the full
raw message.  The result records which class's `parse_message` is invoked
and with which argument.  The default fallback is modelled from the spec
(see `ParserBaseState`). -/
def parserBaseCall (st : ParserBaseState) (raw : Str) :
    Except CallError (PClass × Str) :=
  match splitFirst '>' raw with
  | none => .error .valueError
  | some (_, body) =>
    let destto := takeUntil ',' body
    match dictLookup destto st.parsers with
    | some p => .ok (p, raw)
    | none =>
      match st.dflt with
      | some d => .ok (d, raw)
      | none => .error .parserNotFound

/-- Claim C1: dispatch splits the raw line on the first `'>'` to obtain the
origin and the remainder on the first `','` to obtain the destination token,
invokes the registered decoder's `parse_message` with the full raw line,
falls back to the designated default decoder on a lookup miss, and raises
`ParserNotFoundError` when no decoder matches and no default is set. -/
theorem parserBase_call_dispatch (st : ParserBaseState)
    (origin destto rest : Str) (h1 : '>' ∉ origin) (h2 : ',' ∉ destto) :
    (parserBaseCall st (origin ++ '>' :: (destto ++ ',' :: rest)) =
      match dictLookup destto st.parsers with
      | some p => .ok (p, origin ++ '>' :: (destto ++ ',' :: rest))
      | none =>
        match st.dflt with
        | some d => .ok (d, origin ++ '>' :: (destto ++ ',' :: rest))
        | none => .error .parserNotFound)
  ∧ (parserBaseCall st (origin ++ '>' :: destto) =
      match dictLookup destto st.parsers with
      | some p => .ok (p, origin ++ '>' :: destto)
      | none =>
        match st.dflt with
        | some d => .ok (d, origin ++ '>' :: destto)
        | none => .error .parserNotFound) := by
  constructor
  · rw [parserBaseCall, splitFirst_append (destto ++ ',' :: rest) h1]
    simp only [takeUntil_append rest h2]
  · rw [parserBaseCall, splitFirst_append destto h1]
    simp only [takeUntil_of_not_mem h2]

/-- Witness for Claim C1: dispatching a concrete OGN line through the
module-level registry with no default set selects the `APRS` class, and an
unregistered token errors without a default but selects the default when one
is set. -/
theorem parserBase_call_dispatch_witness :
    parserBaseCall ⟨moduleRegistry, none⟩
        (("FLRDD83BC".toList) ++ '>' :: (("APRS".toList) ++ ',' ::
          ("qAS,EDLF:/163148h5124.56N/00634.42E".toList))) =
      .ok (.APRS, ("FLRDD83BC>APRS,qAS,EDLF:/163148h5124.56N/00634.42E".toList))
  ∧ parserBaseCall ⟨moduleRegistry, none⟩
        (("FLRDD83BC".toList) ++ '>' :: (("OGXXX".toList) ++ ',' ::
          ("qAS,EDLF".toList))) = .error .parserNotFound
  ∧ parserBaseCall ⟨moduleRegistry, some (.Custom ("ServerParser".toList))⟩
        (("FLRDD83BC".toList) ++ '>' :: (("OGXXX".toList) ++ ',' ::
          ("qAS,EDLF".toList))) =
      .ok (.Custom ("ServerParser".toList), ("FLRDD83BC>OGXXX,qAS,EDLF".toList)) := by
  refine ⟨?_, ?_, ?_⟩
  · rw [(parserBase_call_dispatch ⟨moduleRegistry, none⟩ ("FLRDD83BC".toList)
      ("APRS".toList) ("qAS,EDLF:/163148h5124.56N/00634.42E".toList)
      (by decide) (by decide)).1]
    rfl
  · rw [(parserBase_call_dispatch ⟨moduleRegistry, none⟩ ("FLRDD83BC".toList)
      ("OGXXX".toList) ("qAS,EDLF".toList) (by decide) (by decide)).1]
    rfl
  · rw [(parserBase_call_dispatch ⟨moduleRegistry, some (.Custom ("ServerParser".toList))⟩
      ("FLRDD83BC".toList) ("OGXXX".toList) ("qAS,EDLF".toList)
      (by decide) (by decide)).1]
    rfl

/-! ## The session manager (`OgnClient`, client.py) -/

/-- The exception classes of `ogn_lib/exceptions.py` (lines 1-15). -/
inductive ClientError where
  | loginError
  | parseError
deriving DecidableEq

/-- `OgnClient._validate_login` (client.py lines 141-176): checks the
`'# logresp'` marker, decomposes the message into a username/status pair and
a server field, and maps the status to the authentication result.
`passcode` is the client's `self.passcode` (its default value is `"-1"`). -/
def validateLogin (passcode message : Str) : Except ClientError Bool :=
  if startsW ("# logresp".toList) message then
    match pySplitSub2 ',' ' ' message with
    | [user_info, serv_info] =>
      match pySplitChar ' ' (user_info.drop 10) with
      | [_username, status] =>
        let _server := serv_info.drop 7
        if status = ("verified".toList) then .ok true
        else if status = ("unverified".toList) ∧ passcode ≠ ("-1".toList) then
          .ok false
        else if status = ("unverified".toList) then .ok false
        else .error .loginError
      | _ => .error .parseError
    | _ => .error .parseError
  else .error .loginError

/-- The transport-cleanup state of `OgnClient.connect`. -/
structure ConnectState where
  fileClosed : Bool
  sockClosed : Bool
  authenticated : Bool
deriving DecidableEq

/-- The authentication tail of `OgnClient.connect` (client.py lines 82-91):
`self._authenticated = self._validate_login(login_status)`; on a
`LoginError`/`ParseError` the socket file and the socket are closed and the
error is re-raised. -/
def connectValidate (passcode login_status : Str) (st : ConnectState) :
    Except (ClientError × ConnectState) ConnectState :=
  match validateLogin passcode login_status with
  | .ok b => .ok { st with authenticated := b }
  | .error e => .error (e, { st with fileClosed := true, sockClosed := true })

/-- Claim C3: `_validate_login` authenticates exactly on status `verified`,
returns unauthenticated without raising on `unverified` regardless of the
passcode, raises `LoginError` on a non-logresp line and on any other status,
raises `ParseError` when the line does not decompose into a username/status
pair and a server field, and `connect` closes the socket file and socket
before any such error propagates. -/
theorem validate_login_spec :
    (∀ (passcode u status n : Str),
      ',' ∉ u → ' ' ∉ u → ',' ∉ status → ' ' ∉ status → ',' ∉ n →
      validateLogin passcode
          (("# logresp ".toList) ++ u ++ ' ' ::
            (status ++ (", server ".toList) ++ n)) =
        (if status = ("verified".toList) then .ok true
         else if status = ("unverified".toList) then .ok false
         else .error .loginError))
  ∧ (∀ passcode message, startsW ("# logresp".toList) message = false →
      validateLogin passcode message = .error .loginError)
  ∧ (∀ passcode message, startsW ("# logresp".toList) message = true →
      (pySplitSub2 ',' ' ' message).length ≠ 2 →
      validateLogin passcode message = .error .parseError)
  ∧ (∀ passcode message ui si, startsW ("# logresp".toList) message = true →
      pySplitSub2 ',' ' ' message = [ui, si] →
      (pySplitChar ' ' (ui.drop 10)).length ≠ 2 →
      validateLogin passcode message = .error .parseError)
  ∧ (∀ passcode login st e, validateLogin passcode login = .error e →
      connectValidate passcode login st =
        .error (e, { st with fileClosed := true, sockClosed := true }))
  ∧ (∀ passcode login st b, validateLogin passcode login = .ok b →
      connectValidate passcode login st = .ok { st with authenticated := b }) := by
  refine ⟨?_, ?_, ?_, ?_, ?_, ?_⟩
  · intro passcode u status n huc hus hsc hss hnc
    have hlit : (", server ".toList : Str) = ',' :: ' ' :: ("server ".toList) := by
      decide
    have hmsg : ("# logresp ".toList) ++ u ++ ' ' ::
          (status ++ (", server ".toList) ++ n) =
        (("# logresp ".toList) ++ u ++ ' ' :: status) ++
          ',' :: ' ' :: (("server ".toList) ++ n) := by
      rw [hlit]; simp
    have hA : ',' ∉ ("# logresp ".toList) ++ u ++ ' ' :: status := by
      intro hmem
      rcases List.mem_append.1 hmem with h1 | h2
      · rcases List.mem_append.1 h1 with h3 | h4
        · exact absurd h3 (by decide)
        · exact huc h4
      · rcases List.mem_cons.1 h2 with h5 | h6
        · exact absurd h5 (by decide)
        · exact hsc h6
    have hB : ',' ∉ ("server ".toList) ++ n := by
      intro hmem
      rcases List.mem_append.1 hmem with h1 | h2
      · exact absurd h1 (by decide)
      · exact hnc h2
    have hsplit : pySplitSub2 ',' ' '
        (("# logresp ".toList) ++ u ++ ' ' ::
          (status ++ (", server ".toList) ++ n)) =
        [("# logresp ".toList) ++ u ++ ' ' :: status,
         ("server ".toList) ++ n] := by
      rw [hmsg, pySplitSub2_append _ hA, pySplitSub2_no_occ ' ' hB]
    have hstart : startsW ("# logresp".toList)
        (("# logresp ".toList) ++ u ++ ' ' ::
          (status ++ (", server ".toList) ++ n)) = true := by
      rw [show ("# logresp ".toList) ++ u ++ ' ' ::
            (status ++ (", server ".toList) ++ n) =
          ("# logresp".toList) ++ (' ' :: (u ++ ' ' ::
            (status ++ (", server ".toList) ++ n)))
        from by
          rw [show ("# logresp ".toList : Str) = ("# logresp".toList) ++ [' ']
            from by decide]
          simp]
      exact startsW_append _ _
    have hdrop : ((("# logresp ".toList) ++ u ++ ' ' :: status).drop 10 : Str) =
        u ++ ' ' :: status := by
      have h10 : (10 : Nat) = ("# logresp ".toList : Str).length := by decide
      rw [List.append_assoc, h10, List.drop_left]
    have hchar : pySplitChar ' ' (u ++ ' ' :: status) = [u, status] := by
      rw [pySplitChar_cons status hus, pySplitChar_single hss]
    rw [validateLogin, if_pos hstart, hsplit]
    dsimp only
    rw [hdrop, hchar]
    dsimp only
    by_cases hv : status = ("verified".toList)
    · rw [if_pos hv, if_pos hv]
    · rw [if_neg hv, if_neg hv]
      by_cases hu2 : status = ("unverified".toList)
      · by_cases hpc : passcode = ("-1".toList)
        · rw [if_neg (fun hand => hand.2 hpc), if_pos hu2]
        · rw [if_pos ⟨hu2, hpc⟩, if_pos hu2]
      · rw [if_neg (fun hand => hu2 hand.1), if_neg hu2]
  · intro passcode message h
    rw [validateLogin, if_neg (by simpa using h)]
  · intro passcode message hs hlen
    rw [validateLogin, if_pos hs]
    match hsp : pySplitSub2 ',' ' ' message with
    | [] => rfl
    | [_] => rfl
    | [a, b] => rw [hsp] at hlen; simp at hlen
    | _ :: _ :: _ :: _ => rfl
  · intro passcode message ui si hs hsp hlen
    rw [validateLogin, if_pos hs, hsp]
    dsimp only
    match hc : pySplitChar ' ' (ui.drop 10) with
    | [] => rfl
    | [_] => rfl
    | [a, b] => rw [hc] at hlen; simp at hlen
    | _ :: _ :: _ :: _ => rfl
  · intro passcode login st e h
    rw [connectValidate, h]
  · intro passcode login st b h
    rw [connectValidate, h]

/-- Witness for Claim C3: `validate_login_spec` applied to the sample
responses of the repository's test-suite — a verified login authenticates, an
unverified login with a non-default passcode does not raise, a blocked status
raises `LoginError`, a non-logresp greeting raises `LoginError`, a malformed
logresp raises `ParseError`, and `connect` closes both transport handles on
the failure. -/
theorem validate_login_spec_witness :
    validateLogin ("123456".toList)
        ("# logresp user verified, server GLIDERN3".toList) = .ok true
  ∧ validateLogin ("123456".toList)
        ("# logresp user unverified, server GLIDERN3".toList) = .ok false
  ∧ validateLogin ("123456".toList)
        ("# logresp user blocked, server GLIDERN3".toList) =
      .error .loginError
  ∧ validateLogin ("123456".toList) ("# aprsc 2.1.4-g408ed49".toList) =
      .error .loginError
  ∧ validateLogin ("123456".toList) ("# logresp 2.1.4-g408ed49".toList) =
      .error .parseError
  ∧ connectValidate ("123456".toList) ("# aprsc 2.1.4-g408ed49".toList)
        ⟨false, false, false⟩ =
      .error (.loginError, ⟨true, true, false⟩) := by
  have h1 := validate_login_spec.1 ("123456".toList) ("user".toList)
    ("verified".toList) ("GLIDERN3".toList)
    (by decide) (by decide) (by decide) (by decide) (by decide)
  have h2 := validate_login_spec.1 ("123456".toList) ("user".toList)
    ("unverified".toList) ("GLIDERN3".toList)
    (by decide) (by decide) (by decide) (by decide) (by decide)
  have h3 := validate_login_spec.1 ("123456".toList) ("user".toList)
    ("blocked".toList) ("GLIDERN3".toList)
    (by decide) (by decide) (by decide) (by decide) (by decide)
  have h4 := validate_login_spec.2.1 ("123456".toList)
    ("# aprsc 2.1.4-g408ed49".toList) (by decide)
  have h5 := validate_login_spec.2.2.1 ("123456".toList)
    ("# logresp 2.1.4-g408ed49".toList) (by decide) (by decide)
  have h6 := validate_login_spec.2.2.2.2.1 ("123456".toList)
    ("# aprsc 2.1.4-g408ed49".toList) ⟨false, false, false⟩ .loginError h4
  refine ⟨?_, ?_, ?_, h4, h5, h6⟩
  · rw [show ("# logresp user verified, server GLIDERN3".toList : Str) =
      ("# logresp ".toList) ++ ("user".toList) ++ ' ' ::
        (("verified".toList) ++ (", server ".toList) ++ ("GLIDERN3".toList))
      from by decide, h1]
    rfl
  · rw [show ("# logresp user unverified, server GLIDERN3".toList : Str) =
      ("# logresp ".toList) ++ ("user".toList) ++ ' ' ::
        (("unverified".toList) ++ (", server ".toList) ++ ("GLIDERN3".toList))
      from by decide, h2]
    rfl
  · rw [show ("# logresp user blocked, server GLIDERN3".toList : Str) =
      ("# logresp ".toList) ++ ("user".toList) ++ ' ' ::
        (("blocked".toList) ++ (", server ".toList) ++ ("GLIDERN3".toList))
      from by decide, h3]
    rfl

/-- `OgnClient.receive` (client.py lines 93-110), instrumented: `lines` is
the sequence of already-stripped lines the socket file yields (the end of
the list corresponds to `readline` returning an empty string); the result
collects the arguments passed to `callback` during the loop.  The source
body only reads and logs lines until it sees an empty one — it contains no
call to the callback nor to the decoder registry, so no argument is ever
collected. -/
def receiveCallbackArgs (lines : List Str) : List Str :=
  match lines with
  | [] => []
  | line :: rest => if line = [] then [] else receiveCallbackArgs rest

/-- Claim C2 (code bug): the source's `receive` loop never invokes the
callback.  For the concrete non-empty line below (the first APRS record of
the repository's test-suite), the callback receives zero invocations, not
the one per non-empty line that the claim (and `receive`'s own docstring and
the tests' `cb.assert_called_once_with`) require. -/
theorem receive_never_invokes_callback :
    (("FLRDF0F8E>APRS,qAS,EDTD:/075201h4753.35N/00840.21E'350/063/A=004359 !W69! id0ADF0F8E +079fpm -0.6rot 21.5dB 0e -9.5kHz gps1x1".toList : Str) ≠ [])
  ∧ receiveCallbackArgs
      [("FLRDF0F8E>APRS,qAS,EDTD:/075201h4753.35N/00840.21E'350/063/A=004359 !W69! id0ADF0F8E +079fpm -0.6rot 21.5dB 0e -9.5kHz gps1x1".toList)] = []
  ∧ (receiveCallbackArgs
      [("FLRDF0F8E>APRS,qAS,EDTD:/075201h4753.35N/00840.21E'350/063/A=004359 !W69! id0ADF0F8E +079fpm -0.6rot 21.5dB 0e -9.5kHz gps1x1".toList)]).length ≠ 1 := by
  refine ⟨by decide, rfl, by decide⟩

/-! ## The shared header decoder (`Parser`, parser.py lines 77-259) -/

/-- `FEET_TO_METERS` (parser.py line 9). -/
def FEET_TO_METERS : ℚ := 0.3048

/-- `KNOTS_TO_MS` (parser.py line 10). -/
def KNOTS_TO_MS : ℚ := 1852 / 3600

/-- `HPM_TO_DEGS` (parser.py line 11). -/
def HPM_TO_DEGS : ℚ := 180 / 60

/-- The routing fields produced by `Parser._parse_origin`. -/
structure OriginData where
  destto : Str
  receiver : Str
  relayer : Option Str
deriving DecidableEq

namespace Parser

/-- `Parser._parse_origin` (parser.py lines 125-146): the routing info is
split on commas; 3 fields mean a standard message (`relayer = None`),
4 fields a relayed message whose relayer is `fields[1].strip('*')`; any
other count raises `ValueError`.  `fields[0]` is the destto and
`fields[-1]` the receiver. -/
def _parse_origin (header : Str) : Except Unit OriginData :=
  match pySplitChar ',' header with
  | [f0, _, f2] => .ok ⟨f0, f2, none⟩
  | [f0, f1, _, f3] => .ok ⟨f0, f3, some (pyStrip '*' f1)⟩
  | _ => .error ()

/-- `Parser._update_location_decimal` (parser.py lines 244-259): adds the
third extra decimal to an already-decoded coordinate, negating the delta
when the coordinate is negative. -/
def _update_location_decimal (existing update : ℚ) : ℚ :=
  let delta := if existing < 0 then -update else update
  existing + delta / 60000

/-- `Parser._get_location_update_func` (parser.py lines 230-241): the
partial application `functools.partial(_update_location_decimal,
update=update_with)`. -/
def _get_location_update_func (update_with : ℚ) : ℚ → ℚ :=
  fun existing => _update_location_decimal existing update_with

/-- `Parser._parse_timestamp` (parser.py lines 181-202): the three 2-digit
slices of the `%H%M%S` string become a time of day, which is combined with
the current UTC date; the result is backed up by one day when it lies more
than 300 seconds in the future of the clock.  The decode-time clock `now`
is in seconds since the epoch; the result is the same scale (`Int`, so the
day subtraction may go negative near the epoch). -/
def _parse_timestamp (timestamp_str : Str) (now : Nat) : Option Int :=
  match pyNat? (timestamp_str.take 2), pyNat? ((timestamp_str.drop 2).take 2),
      pyNat? ((timestamp_str.drop 4).take 2) with
  | some h, some m, some s =>
    if h < 24 ∧ m < 60 ∧ s < 60 then
      let secs : Int := h * 3600 + m * 60 + s
      let full : Int := ((now / 86400 : Nat) : Int) * 86400 + secs
      if (now : Int) - full < -300 then some (full - 86400) else some full
    else none
  | _, _, _ => none

end Parser

/-- Claim C4 counterexample: in a 4-token routing header the source takes
`fields[1]` (stripping `'*'` from both ends), not the starred token.  In the
header below the only starred token is `"OTHER*"`, yet the relayer comes out
as `"REL"`. -/
theorem parse_origin_counterexample :
    Parser._parse_origin ("DST,REL,OTHER*,RCV".toList) =
      .ok ⟨("DST".toList), ("RCV".toList), some ("REL".toList)⟩
  ∧ (pySplitChar ',' ("DST,REL,OTHER*,RCV".toList)).filter
      (fun f => endsW ['*'] f) = [("OTHER*".toList)]
  ∧ ("REL".toList : Str) ≠ pyStrip '*' ("OTHER*".toList) := by
  refine ⟨rfl, rfl, by decide⟩

/-- Claim C4 (amended): the shared header decoder splits the routing info on
commas; exactly 3 tokens give `relayer = none`, exactly 4 give `relayer =`
the second token with `'*'` stripped from both ends (in well-formed traffic
that second token is the starred relayer), any other count fails; the first
token is the destination and the last the final receiver; no path field is
produced (the result only carries destto, receiver and relayer). -/
theorem parse_origin_spec (a b c d e : Str)
    (hac : ',' ∉ a) (hbc : ',' ∉ b) (hcc : ',' ∉ c) (hdc : ',' ∉ d)
    (hec : ',' ∉ e) :
    Parser._parse_origin (a ++ ',' :: (b ++ ',' :: c)) = .ok ⟨a, c, none⟩
  ∧ Parser._parse_origin (a ++ ',' :: (b ++ ',' :: (c ++ ',' :: d))) =
      .ok ⟨a, d, some (pyStrip '*' b)⟩
  ∧ Parser._parse_origin (a ++ ',' :: b) = .error ()
  ∧ Parser._parse_origin a = .error ()
  ∧ Parser._parse_origin
      (a ++ ',' :: (b ++ ',' :: (c ++ ',' :: (d ++ ',' :: e)))) =
      .error () := by
  refine ⟨?_, ?_, ?_, ?_, ?_⟩
  · rw [Parser._parse_origin, pySplitChar_cons _ hac, pySplitChar_cons _ hbc,
      pySplitChar_single hcc]
  · rw [Parser._parse_origin, pySplitChar_cons _ hac, pySplitChar_cons _ hbc,
      pySplitChar_cons _ hcc, pySplitChar_single hdc]
  · rw [Parser._parse_origin, pySplitChar_cons _ hac, pySplitChar_single hbc]
  · rw [Parser._parse_origin, pySplitChar_single hac]
  · rw [Parser._parse_origin, pySplitChar_cons _ hac, pySplitChar_cons _ hbc,
      pySplitChar_cons _ hcc, pySplitChar_cons _ hdc, pySplitChar_single hec]

/-- Witness for Claim C4: `parse_origin_spec` applied to the routing info of
the spec's full-decode scenario and to its relayed variant. -/
theorem parse_origin_spec_witness :
    Parser._parse_origin ("APRS,qAS,EDLF".toList) =
      .ok ⟨("APRS".toList), ("EDLF".toList), none⟩
  ∧ Parser._parse_origin ("APRS,RELAY*,qAS,EDLF".toList) =
      .ok ⟨("APRS".toList), ("EDLF".toList), some ("RELAY".toList)⟩ := by
  have h := parse_origin_spec ("APRS".toList) ("qAS".toList) ("EDLF".toList)
    ("x".toList) ("y".toList)
    (by decide) (by decide) (by decide) (by decide) (by decide)
  have h2 := parse_origin_spec ("APRS".toList) ("RELAY*".toList)
    ("qAS".toList) ("EDLF".toList) ("y".toList)
    (by decide) (by decide) (by decide) (by decide) (by decide)
  constructor
  · rw [show ("APRS,qAS,EDLF".toList : Str) =
      ("APRS".toList) ++ ',' :: (("qAS".toList) ++ ',' :: ("EDLF".toList))
      from by decide, h.1]
  · rw [show ("APRS,RELAY*,qAS,EDLF".toList : Str) =
      ("APRS".toList) ++ ',' :: (("RELAY*".toList) ++ ',' ::
        (("qAS".toList) ++ ',' :: ("EDLF".toList)))
      from by decide, h2.2.1]
    rfl

/-- Claim C9: the third-decimal refinement adds `d/60000` degrees with the
sign of the existing coordinate, never the digit's: identity at `d = 0`,
and the refined magnitude is always the original magnitude plus `d/60000`. -/
theorem update_location_decimal_spec (x : ℚ) (d : ℕ) (hd : d ≤ 9) :
    (0 ≤ x → Parser._update_location_decimal x d = x + d / 60000)
  ∧ (x < 0 → Parser._update_location_decimal x d = x - d / 60000)
  ∧ Parser._update_location_decimal x 0 = x
  ∧ |Parser._update_location_decimal x d| = |x| + d / 60000
  ∧ Parser._get_location_update_func d x = Parser._update_location_decimal x d := by
  have hden : (0 : ℚ) ≤ (d : ℚ) / 60000 := by positivity
  refine ⟨?_, ?_, ?_, ?_, rfl⟩
  · intro hx
    rw [Parser._update_location_decimal, if_neg (not_lt.mpr hx)]
  · intro hx
    rw [Parser._update_location_decimal, if_pos hx]
    ring
  · rw [Parser._update_location_decimal]
    split <;> simp
  · by_cases hx : x < 0
    · rw [Parser._update_location_decimal, if_pos hx]
      rw [abs_of_neg hx, abs_of_nonpos (by nlinarith)]
      ring
    · rw [Parser._update_location_decimal, if_neg hx]
      push_neg at hx
      rw [abs_of_nonneg hx, abs_of_nonneg (by linarith)]

/-- Witness for Claim C9: the refinement of the negative coordinate `-11.4`
by digit 3 moves it away from zero by exactly `3/60000` degrees. -/
theorem update_location_decimal_spec_witness :
    Parser._update_location_decimal (-114/10) 3 = -114/10 - 3/60000
  ∧ Parser._update_location_decimal (57/10) 3 = 57/10 + 3/60000
  ∧ Parser._update_location_decimal (-114/10) 0 = -114/10
  ∧ |Parser._update_location_decimal (-114/10) 3| = |(-114/10 : ℚ)| + 3/60000 := by
  have h1 := update_location_decimal_spec (-114/10) 3 (by norm_num)
  have h2 := update_location_decimal_spec (57/10) 3 (by norm_num)
  have h3 := update_location_decimal_spec (-114/10) 0 (by norm_num)
  exact ⟨by simpa using h1.2.1 (by norm_num), by simpa using h2.1 (by norm_num),
    h3.2.2.1, by simpa using h1.2.2.2.1⟩

/-- The 2-digit zero-padded rendering of `n < 100`, as produced by
`strftime('%H%M%S')` for each timestamp component. -/
def fmt2 (n : Nat) : Str :=
  [Char.ofNat ('0'.toNat + n / 10), Char.ofNat ('0'.toNat + n % 10)]

theorem pyNat?_fmt2 : ∀ n, n < 100 → pyNat? (fmt2 n) = some n := by decide

/-- Claim C5 counterexample: the instant `86313800` lies `86200` seconds —
less than 24 hours — in the past of the clock `86400000`, but decoding its
time of day `00:03:20` yields `86400200`, an instant 200 seconds in the
future: the age is `-200`, outside `[0, 86400]`.  (The 300-second
future-tolerance window keeps the combination on the current day.) -/
theorem parse_timestamp_age_counterexample :
    ((86400000 : Nat) - 86313800 ≤ 86400)
  ∧ ((86313800 : Nat) % 86400 = 0 * 3600 + 3 * 60 + 20)
  ∧ ("000320".toList : Str) = fmt2 0 ++ fmt2 3 ++ fmt2 20
  ∧ Parser._parse_timestamp ("000320".toList) 86400000 = some 86400200
  ∧ ¬ (0 ≤ (86400000 : Int) - 86400200) := by
  refine ⟨by decide, by decide, by decide, by decide, by decide⟩

/-- Claim C5 (amended): the parsed timestamp is the 6-digit time of day
combined with the current UTC day, minus one day exactly when that
combination lies more than 300 seconds in the future of the decode-time
clock; consequently any message instant less than 23 h 55 min (86100 s) in
the past decodes to exactly itself, so its age is in `[0, 86400]`; and a
combination up to 300 seconds in the future is not shifted back a day. -/
theorem parse_timestamp_spec (h m s now : Nat)
    (hh : h < 24) (hm : m < 60) (hs : s < 60) :
    (Parser._parse_timestamp (fmt2 h ++ fmt2 m ++ fmt2 s) now =
      some (if ((now : Int) + 300 <
             ((now / 86400 : Nat) : Int) * 86400 + (h * 3600 + m * 60 + s))
        then ((now / 86400 : Nat) : Int) * 86400 + (h * 3600 + m * 60 + s)
              - 86400
        else ((now / 86400 : Nat) : Int) * 86400 + (h * 3600 + m * 60 + s)))
  ∧ (∀ t : Nat, t ≤ now → now - t < 86100 →
      t % 86400 = h * 3600 + m * 60 + s →
      Parser._parse_timestamp (fmt2 h ++ fmt2 m ++ fmt2 s) now =
        some (t : Int) ∧
      0 ≤ (now : Int) - (t : Int) ∧ (now : Int) - (t : Int) ≤ 86400) := by
  have h1 : ((fmt2 h ++ fmt2 m ++ fmt2 s).take 2 : Str) = fmt2 h := by
    simp [fmt2]
  have h2 : (((fmt2 h ++ fmt2 m ++ fmt2 s).drop 2).take 2 : Str) = fmt2 m := by
    simp [fmt2]
  have h3 : (((fmt2 h ++ fmt2 m ++ fmt2 s).drop 4).take 2 : Str) = fmt2 s := by
    simp [fmt2]
  have heval : Parser._parse_timestamp (fmt2 h ++ fmt2 m ++ fmt2 s) now =
      some (if ((now : Int) + 300 <
             ((now / 86400 : Nat) : Int) * 86400 + (h * 3600 + m * 60 + s))
        then ((now / 86400 : Nat) : Int) * 86400 + (h * 3600 + m * 60 + s)
              - 86400
        else ((now / 86400 : Nat) : Int) * 86400 + (h * 3600 + m * 60 + s)) := by
    rw [Parser._parse_timestamp, h1, h2, h3, pyNat?_fmt2 h (by omega),
      pyNat?_fmt2 m (by omega), pyNat?_fmt2 s (by omega)]
    dsimp only
    rw [if_pos ⟨hh, hm, hs⟩]
    by_cases hc : (now : Int) -
        (((now / 86400 : Nat) : Int) * 86400 + (h * 3600 + m * 60 + s)) < -300
    · rw [if_pos hc, if_pos (by push_cast at hc ⊢; omega)]
    · rw [if_neg hc, if_neg (by push_cast at hc ⊢; omega)]
  refine ⟨heval, ?_⟩
  intro t ht1 ht2 ht3
  refine ⟨?_, by omega, by omega⟩
  rw [heval]
  congr 1
  split_ifs with hc
  · push_cast at hc ⊢
    omega
  · push_cast at hc ⊢
    omega

/-- Witness for Claim C5: decoding the time of day `13:30:00` of the instant
`999000` (1000 seconds in the past of the clock `1000000`) returns exactly
that instant, with an age inside `[0, 86400]`. -/
theorem parse_timestamp_spec_witness :
    (fmt2 13 ++ fmt2 30 ++ fmt2 0 : Str) = ("133000".toList)
  ∧ Parser._parse_timestamp (fmt2 13 ++ fmt2 30 ++ fmt2 0) 1000000 =
      some (999000 : Int)
  ∧ 0 ≤ (1000000 : Int) - (999000 : Int)
  ∧ (1000000 : Int) - (999000 : Int) ≤ 86400 := by
  have h := (parse_timestamp_spec 13 30 0 1000000
    (by decide) (by decide) (by decide)).2 999000
    (by decide) (by decide) (by decide)
  exact ⟨by decide, h.1, h.2.1, h.2.2⟩

/-- The fields produced by `Parser._parse_position`. -/
structure PositionData where
  timestamp : Int
  latitude : ℚ
  longitude : ℚ
  altitude : ℚ
  heading : Option Int
  ground_speed : Option ℚ
deriving DecidableEq

namespace Parser

/-- `Parser._parse_location` (parser.py lines 204-223): hemisphere from the
last character, 2-digit (latitude) or 3-digit (longitude) degrees, 5
characters of decimal minutes divided by 60, negated for `S`/`W`. -/
def _parse_location (location_str : Str) : Option ℚ :=
  match location_str.getLast? with
  | none => none
  | some sphere =>
    let offset : Nat := if sphere = 'N' ∨ sphere = 'S' then 2 else 3
    match pyInt? (location_str.take offset),
        pyDec? ((location_str.drop offset).take 5) with
    | some deg, some minutes =>
      some (if sphere = 'S' ∨ sphere = 'W'
            then -((deg : ℚ) + minutes / 60)
            else (deg : ℚ) + minutes / 60)
    | _, _ => none

/-- The heading/speed conditional of `Parser._parse_position` (parser.py
lines 172-177): `if heading or speed:` both fields are kept (speed converted
knots to m/s), otherwise both are `None`. -/
def _heading_speed (heading speed : Int) : Option Int × Option ℚ :=
  if heading ≠ 0 ∨ speed ≠ 0 then
    (some heading, some ((speed : ℚ) * KNOTS_TO_MS))
  else (none, none)

/-- `Parser._parse_position` (parser.py lines 148-179): the first 6
characters are the timestamp, character 6 is skipped, the rest is split at
the first `'\''` into `lat/lon` and `heading/speed/A=altitude`; the three
attrs become ints after removing `'A='`, altitude is converted feet to
meters, heading and speed per `_heading_speed`. -/
def _parse_position (pos_header : Str) (now : Nat) : Option PositionData :=
  match splitFirst '\'' (pos_header.drop 7) with
  | none => none
  | some (position, attrs) =>
    match pySplitChar '/' position with
    | [lat, lon] =>
      match (pySplitChar '/' (removeSub2 'A' '=' attrs)).mapM pyInt? with
      | some [heading, speed, altitude] =>
        match _parse_timestamp (pos_header.take 6) now,
            _parse_location lat, _parse_location lon with
        | some ts, some la, some lo =>
          some { timestamp := ts, latitude := la, longitude := lo,
                 altitude := (altitude : ℚ) * FEET_TO_METERS,
                 heading := (_heading_speed heading speed).1,
                 ground_speed := (_heading_speed heading speed).2 }
        | _, _, _ => none
      | _ => none
    | _ => none

end Parser

/-- Evaluation helper: `pyDecCore?` on a string that splits at `'.'` into a
non-empty integer part and a fraction part of `k` digits. -/
theorem pyDecCore_eval (s ip fp : Str) (ipv fpv k : Nat)
    (hspan : s.span (fun c => c ≠ '.') = (ip, '.' :: fp))
    (hip : ip ≠ []) (hfp : fp ≠ [])
    (hnodot : fp.any (fun c => c = '.') = false)
    (hipv : pyNat? ip = some ipv) (hfpv : pyNat? fp = some fpv)
    (hk : fp.length = k) :
    pyDecCore? s = some ((ipv : ℚ) + (fpv : ℚ) / 10 ^ k) := by
  rw [pyDecCore?, hspan]
  dsimp only
  rw [if_neg (fun hand => hip hand.1), if_neg (by simp [hnodot]),
    if_neg hip, hipv]
  dsimp only [Bind.bind, Option.bind]
  rw [if_neg hfp, hfpv]
  dsimp only [Bind.bind, Option.bind]
  rw [hk]

/-- Evaluation helper: `Parser._parse_location` in terms of its slices. -/
theorem parse_location_eval (s : Str) (sphere : Char) (degS minS : Str)
    (deg : Int) (minutes : ℚ)
    (hlast : s.getLast? = some sphere)
    (htake : s.take (if sphere = 'N' ∨ sphere = 'S' then 2 else 3) = degS)
    (hdrop : (s.drop (if sphere = 'N' ∨ sphere = 'S' then 2 else 3)).take 5 =
      minS)
    (hdeg : pyInt? degS = some deg) (hmin : pyDec? minS = some minutes) :
    Parser._parse_location s =
      some (if sphere = 'S' ∨ sphere = 'W' then -((deg : ℚ) + minutes / 60)
            else (deg : ℚ) + minutes / 60) := by
  rw [Parser._parse_location, hlast]
  dsimp only
  rw [htake, hdrop, hdeg, hmin]

theorem parse_location_lat_exam :
    Parser._parse_location ("5124.56N".toList) =
      some ((51 : ℚ) + ((24 : ℚ) + (56 : ℚ) / 10 ^ 2) / 60) := by
  have hmin : pyDec? ("24.56".toList) = some ((24 : ℚ) + (56 : ℚ) / 10 ^ 2) := by
    rw [show pyDec? ("24.56".toList) = pyDecCore? ("24.56".toList) from rfl,
      pyDecCore_eval ("24.56".toList) ("24".toList) ("56".toList) 24 56 2
        (by decide) (by decide) (by decide) (by decide) (by decide) (by decide)
        (by decide)]
    norm_num
  rw [parse_location_eval ("5124.56N".toList) 'N' ("51".toList)
      ("24.56".toList) 51 ((24 : ℚ) + (56 : ℚ) / 10 ^ 2)
      (by decide) (by decide) (by decide) (by decide) hmin,
    if_neg (by decide)]
  norm_num

theorem parse_location_lon_exam :
    Parser._parse_location ("00634.42E".toList) =
      some ((6 : ℚ) + ((34 : ℚ) + (42 : ℚ) / 10 ^ 2) / 60) := by
  have hmin : pyDec? ("34.42".toList) = some ((34 : ℚ) + (42 : ℚ) / 10 ^ 2) := by
    rw [show pyDec? ("34.42".toList) = pyDecCore? ("34.42".toList) from rfl,
      pyDecCore_eval ("34.42".toList) ("34".toList) ("42".toList) 34 42 2
        (by decide) (by decide) (by decide) (by decide) (by decide) (by decide)
        (by decide)]
    norm_num
  rw [parse_location_eval ("00634.42E".toList) 'E' ("006".toList)
      ("34.42".toList) 6 ((34 : ℚ) + (42 : ℚ) / 10 ^ 2)
      (by decide) (by decide) (by decide) (by decide) hmin,
    if_neg (by decide)]
  norm_num

/-- Claim C7: heading and ground speed are both absent exactly when both raw
fields are zero; otherwise heading is the raw integer and speed the raw
integer times 1852/3600 (knots to m/s, `'100'`/`'050'` giving heading 100
and speed 463/18 which is within 0.1 of 25.72); altitude is always present
and equals the raw integer times 0.3048 (= 381/1250) meters. -/
theorem parse_position_heading_speed_spec :
    (∀ heading speed : Int,
      Parser._heading_speed heading speed =
        if heading = 0 ∧ speed = 0 then (none, none)
        else (some heading, some ((speed : ℚ) * (1852 / 3600))))
  ∧ (∀ (ph : Str) (now : Nat) (d : PositionData),
      Parser._parse_position ph now = some d →
      (d.heading = none ↔ d.ground_speed = none))
  ∧ FEET_TO_METERS = 381 / 1250
  ∧ |(50 : ℚ) * KNOTS_TO_MS - 25.72| ≤ 1 / 10
  ∧ Parser._parse_position
      ("163148h5124.56N/00634.42E'100/050/A=001551".toList) 1000000 =
      some { timestamp := 923508, latitude := 38557/750,
             longitude := 19721/3000, altitude := 590931/1250,
             heading := some 100, ground_speed := some (463/18) }
  ∧ Parser._parse_position
      ("163148h5124.56N/00634.42E'000/000/A=001551".toList) 1000000 =
      some { timestamp := 923508, latitude := 38557/750,
             longitude := 19721/3000, altitude := 590931/1250,
             heading := none, ground_speed := none } := by
  have habs : |(50 : ℚ) * KNOTS_TO_MS - 25.72| ≤ 1 / 10 := by
    rw [abs_sub_le_iff]
    constructor <;> norm_num [KNOTS_TO_MS]
  refine ⟨?_, ?_, by norm_num [FEET_TO_METERS], habs, ?_, ?_⟩
  · intro heading speed
    rw [Parser._heading_speed, KNOTS_TO_MS]
    by_cases hz : heading = 0 ∧ speed = 0
    · rw [if_neg (by simp [hz.1, hz.2]), if_pos hz]
    · rw [if_pos (by tauto), if_neg hz]
  · intro ph now d h
    rw [Parser._parse_position] at h
    split at h
    · exact absurd h (by simp)
    · split at h
      · split at h
        · split at h
          · simp only [Option.some.injEq] at h
            subst h
            rw [Parser._heading_speed]
            split <;> simp
          · exact absurd h (by simp)
        · exact absurd h (by simp)
      · exact absurd h (by simp)
  · rw [Parser._parse_position,
      show (("163148h5124.56N/00634.42E'100/050/A=001551".toList : Str)).drop 7
        = ("5124.56N/00634.42E'100/050/A=001551".toList) from by decide,
      show splitFirst '\'' ("5124.56N/00634.42E'100/050/A=001551".toList) =
        some (("5124.56N/00634.42E".toList), ("100/050/A=001551".toList))
        from by decide]
    dsimp only
    rw [show pySplitChar '/' ("5124.56N/00634.42E".toList) =
      [("5124.56N".toList), ("00634.42E".toList)] from by decide]
    dsimp only
    rw [show (pySplitChar '/'
        (removeSub2 'A' '=' ("100/050/A=001551".toList))).mapM pyInt? =
      some [(100 : Int), 50, 1551] from by decide]
    dsimp only
    rw [show (("163148h5124.56N/00634.42E'100/050/A=001551".toList : Str)).take 6
        = ("163148".toList) from by decide,
      show Parser._parse_timestamp ("163148".toList) 1000000 = some 923508
        from by decide,
      parse_location_lat_exam, parse_location_lon_exam]
    dsimp only
    rw [Parser._heading_speed, if_pos (by norm_num)]
    norm_num [FEET_TO_METERS, KNOTS_TO_MS]
  · rw [Parser._parse_position,
      show (("163148h5124.56N/00634.42E'000/000/A=001551".toList : Str)).drop 7
        = ("5124.56N/00634.42E'000/000/A=001551".toList) from by decide,
      show splitFirst '\'' ("5124.56N/00634.42E'000/000/A=001551".toList) =
        some (("5124.56N/00634.42E".toList), ("000/000/A=001551".toList))
        from by decide]
    dsimp only
    rw [show pySplitChar '/' ("5124.56N/00634.42E".toList) =
      [("5124.56N".toList), ("00634.42E".toList)] from by decide]
    dsimp only
    rw [show (pySplitChar '/'
        (removeSub2 'A' '=' ("000/000/A=001551".toList))).mapM pyInt? =
      some [(0 : Int), 0, 1551] from by decide]
    dsimp only
    rw [show (("163148h5124.56N/00634.42E'000/000/A=001551".toList : Str)).take 6
        = ("163148".toList) from by decide,
      show Parser._parse_timestamp ("163148".toList) 1000000 = some 923508
        from by decide,
      parse_location_lat_exam, parse_location_lon_exam]
    dsimp only
    rw [Parser._heading_speed, if_neg (by norm_num)]
    norm_num [FEET_TO_METERS]

/-- Witness for Claim C7: the `'100'`/`'050'` pair decodes to heading 100 and
speed 463/18 m/s, and a successfully parsed position header satisfies the
both-absent-or-both-present property. -/
theorem parse_position_heading_speed_spec_witness :
    Parser._heading_speed 100 50 = (some 100, some ((50 : ℚ) * (1852 / 3600)))
  ∧ ∃ d, Parser._parse_position
        ("163148h5124.56N/00634.42E'100/050/A=001551".toList) 1000000 =
        some d ∧ (d.heading = none ↔ d.ground_speed = none) := by
  obtain ⟨h1, h2, -, -, h5, -⟩ := parse_position_heading_speed_spec
  refine ⟨?_, ⟨_, h5, h2 _ _ _ h5⟩⟩
  rw [h1 100 50]
  norm_num

/-! ## Device-id flag decoding (`APRS`/`Naviter`, parser.py lines 262-431) -/

/-- Modelled from the spec: the `constants.AirplaneType` enumeration
(`ogn_lib/constants.py` is absent from src/).  Spec §4.4 lists glider,
tow-plane, helicopter, parachute, drop-plane, hang-glider, paraglider,
powered-aircraft, jet, balloon, airship, UAV, static-object and unknown; the
spec gives no numeric codes, so the natural sequential assignment from 0 is
used, which agrees with the repository tests (glider = 1, paraglider = 7). -/
inductive AirplaneType where
  | unknown
  | glider
  | tow_plane
  | helicopter
  | parachute
  | drop_plane
  | hang_glider
  | paraglider
  | powered_aircraft
  | jet
  | balloon
  | airship
  | uav
  | static_object
deriving DecidableEq

/-- Modelled from the spec: the numeric decoding of `constants.AirplaneType`
(an `enum.Enum` call, raising `ValueError` on an unmapped raw value). -/
def airplaneType? : Nat → Option AirplaneType
  | 0 => some .unknown
  | 1 => some .glider
  | 2 => some .tow_plane
  | 3 => some .helicopter
  | 4 => some .parachute
  | 5 => some .drop_plane
  | 6 => some .hang_glider
  | 7 => some .paraglider
  | 8 => some .powered_aircraft
  | 9 => some .jet
  | 10 => some .balloon
  | 11 => some .airship
  | 12 => some .uav
  | 13 => some .static_object
  | _ => none

/-- Modelled from the spec: the `constants.AddressType` enumeration — a
fixed small set including flarm, naviter, icao, ogn-tracker and unknown;
the repository tests pin flarm = 2 and naviter = 4. -/
inductive AddressType where
  | unknown
  | icao
  | flarm
  | ogn_tracker
  | naviter
deriving DecidableEq

/-- Modelled from the spec: the numeric decoding of `constants.AddressType`
(raising `ValueError` on an unmapped raw value). -/
def addressType? : Nat → Option AddressType
  | 0 => some .unknown
  | 1 => some .icao
  | 2 => some .flarm
  | 3 => some .ogn_tracker
  | 4 => some .naviter
  | _ => none

/-- The fields produced by `_parse_id_string`. -/
structure IdData where
  uid : Str
  stealth : Bool
  do_not_track : Bool
  aircraft_type : AirplaneType
  address_type : AddressType
deriving DecidableEq

namespace APRS

/-- `APRS.FLAGS_STEALTH` (parser.py line 269). -/
def FLAGS_STEALTH : Nat := 1 <<< 7

/-- `APRS.FLAGS_DO_NOT_TRACK` (parser.py line 270). -/
def FLAGS_DO_NOT_TRACK : Nat := 1 <<< 6

/-- `APRS.FLAGS_AIRCRAFT_TYPE` (parser.py line 271, `0b1111 << 2`). -/
def FLAGS_AIRCRAFT_TYPE : Nat := 15 <<< 2

/-- `APRS.FLAGS_ADDRESS_TYPE` (parser.py line 272, `0b11`). -/
def FLAGS_ADDRESS_TYPE : Nat := 3

/-- `APRS._parse_id_string` (parser.py lines 339-357): the first 2 hex
characters are the flags byte; stealth, do-not-track, aircraft type and
address type are unpacked with the `FLAGS_*` masks. -/
def _parse_id_string (id_string : Str) : Option IdData := do
  let flags ← pyHex? (id_string.take 2)
  let at_ ← airplaneType? ((flags &&& FLAGS_AIRCRAFT_TYPE) >>> 2)
  let ad ← addressType? (flags &&& FLAGS_ADDRESS_TYPE)
  some ⟨id_string, (flags &&& FLAGS_STEALTH) != 0,
    (flags &&& FLAGS_DO_NOT_TRACK) != 0, at_, ad⟩

end APRS

namespace Naviter

/-- `Naviter.FLAGS_STEALTH` (parser.py line 367). -/
def FLAGS_STEALTH : Nat := 1 <<< 15

/-- `Naviter.FLAGS_DO_NOT_TRACK` (parser.py line 368). -/
def FLAGS_DO_NOT_TRACK : Nat := 1 <<< 14

/-- `Naviter.FLAGS_AIRCRAFT_TYPE` (parser.py line 369, `0b1111 << 10`). -/
def FLAGS_AIRCRAFT_TYPE : Nat := 15 <<< 10

/-- `Naviter.FLAGS_ADDRESS_TYPE` (parser.py line 370, `0b111111 << 4`). -/
def FLAGS_ADDRESS_TYPE : Nat := 63 <<< 4

/-- `Naviter._parse_id_string` (parser.py lines 411-430): the first 4 hex
characters are the flags word; stealth, do-not-track, aircraft type and
address type are unpacked with the `FLAGS_*` masks. -/
def _parse_id_string (id_string : Str) : Option IdData := do
  let flags ← pyHex? (id_string.take 4)
  let at_ ← airplaneType? ((flags &&& FLAGS_AIRCRAFT_TYPE) >>> 10)
  let ad ← addressType? ((flags &&& FLAGS_ADDRESS_TYPE) >>> 4)
  some ⟨id_string, (flags &&& FLAGS_STEALTH) != 0,
    (flags &&& FLAGS_DO_NOT_TRACK) != 0, at_, ad⟩

end Naviter

/-- The claim's reading of the APRS/FLARM layout, written with division and
remainder: stealth at bit 7, do-not-track at bit 6, aircraft type in bits
5..2, address type in bits 1..0 of the 2-byte hex prefix. -/
def aprsIdLayout (id_string : Str) : Option IdData := do
  let flags ← pyHex? (id_string.take 2)
  let at_ ← airplaneType? (flags / 4 % 16)
  let ad ← addressType? (flags % 4)
  some ⟨id_string, decide (flags / 2 ^ 7 % 2 = 1), decide (flags / 2 ^ 6 % 2 = 1),
    at_, ad⟩

/-- The claim's reading of the Naviter layout: stealth at bit 15,
do-not-track at bit 14, aircraft type in bits 13..10, address type in bits
9..4 of the 4-byte hex prefix. -/
def naviterIdLayout (id_string : Str) : Option IdData := do
  let flags ← pyHex? (id_string.take 4)
  let at_ ← airplaneType? (flags / 2 ^ 10 % 16)
  let ad ← addressType? (flags / 2 ^ 4 % 64)
  some ⟨id_string, decide (flags / 2 ^ 15 % 2 = 1), decide (flags / 2 ^ 14 % 2 = 1),
    at_, ad⟩

theorem and_shiftLeft_shiftRight (n m k : Nat) :
    (n &&& (m <<< k)) >>> k = (n >>> k) &&& m := by
  apply Nat.eq_of_testBit_eq
  intro i
  simp only [Nat.testBit_shiftRight, Nat.testBit_and, Nat.testBit_shiftLeft]
  have h1 : k ≤ k + i := Nat.le_add_right k i
  simp [h1, Nat.add_sub_cancel_left]

theorem and_mask_div_mod (n k j : Nat) :
    (n &&& ((2 ^ j - 1) <<< k)) >>> k = n / 2 ^ k % 2 ^ j := by
  rw [and_shiftLeft_shiftRight, Nat.shiftRight_eq_div_pow,
    Nat.and_pow_two_sub_one_eq_mod]

theorem and_single_bit (n k : Nat) :
    ((n &&& (1 <<< k)) != 0) = decide (n / 2 ^ k % 2 = 1) := by
  rw [← Nat.testBit_to_div_mod]
  have hone : ∀ m, (1 : Nat).testBit m = decide (m = 0) := by
    intro m
    cases m with
    | zero => decide
    | succ j =>
      rw [show (1 : Nat) = 2 ^ 0 from rfl, Nat.testBit_two_pow_of_ne (by omega)]
      simp
  rcases htb : n.testBit k with _ | _
  · have hz : n &&& 1 <<< k = 0 := by
      apply Nat.eq_of_testBit_eq
      intro i
      simp only [Nat.testBit_and, Nat.testBit_shiftLeft, Nat.zero_testBit, hone]
      by_cases hik : i = k
      · subst hik
        simp [htb]
      · by_cases hki : k ≤ i
        · have hik0 : ¬(i - k = 0) := by omega
          simp [hik0]
        · simp [hki]
    simp [hz, htb]
  · have hnz : n &&& 1 <<< k ≠ 0 := by
      intro h0
      have h1 := congrArg (fun x => Nat.testBit x k) h0
      simp only [Nat.testBit_and, Nat.testBit_shiftLeft, Nat.zero_testBit,
        htb, hone] at h1
      simp at h1
    simp [htb, hnz]

/-- Claim C6: the device flags are decoded from the id token's hex prefix
with the per-format bit layout — APRS/FLARM: 2-byte prefix, stealth bit 7,
do-not-track bit 6, aircraft type bits 5..2, address type bits 1..0;
Naviter: 4-byte prefix, stealth bit 15, do-not-track bit 14, aircraft type
bits 13..10, address type bits 9..4 — and raw aircraft-type or address-type
values outside the fixed enumerations make decoding fail instead of
defaulting. -/
theorem id_string_flag_layout :
    (∀ s, APRS._parse_id_string s = aprsIdLayout s)
  ∧ (∀ s, Naviter._parse_id_string s = naviterIdLayout s)
  ∧ airplaneType? 14 = none
  ∧ airplaneType? 15 = none
  ∧ (∀ n, n < 64 → 5 ≤ n → addressType? n = none)
  ∧ APRS._parse_id_string ("3AABCDEF".toList) = none
  ∧ Naviter._parse_id_string ("0050ABCD".toList) = none
  ∧ APRS._parse_id_string ("06DF0A52".toList) =
      some ⟨("06DF0A52".toList), false, false, .glider, .flarm⟩
  ∧ Naviter._parse_id_string ("1C4007220E".toList) =
      some ⟨("1C4007220E".toList), false, false, .paraglider, .naviter⟩ := by
  refine ⟨?_, ?_, rfl, rfl, by decide, by decide, by decide, by decide,
    by decide⟩
  · intro s
    rw [APRS._parse_id_string, aprsIdLayout]
    refine congrArg _ ?_
    funext flags
    rw [show (flags &&& APRS.FLAGS_AIRCRAFT_TYPE) >>> 2 = flags / 4 % 16 from by
        rw [APRS.FLAGS_AIRCRAFT_TYPE, show (15 : Nat) = 2 ^ 4 - 1 from rfl,
          and_mask_div_mod]
        norm_num,
      show flags &&& APRS.FLAGS_ADDRESS_TYPE = flags % 4 from by
        rw [APRS.FLAGS_ADDRESS_TYPE, show (3 : Nat) = 2 ^ 2 - 1 from rfl,
          Nat.and_pow_two_sub_one_eq_mod],
      show ((flags &&& APRS.FLAGS_STEALTH) != 0) =
          decide (flags / 2 ^ 7 % 2 = 1) from by
        rw [APRS.FLAGS_STEALTH, and_single_bit],
      show ((flags &&& APRS.FLAGS_DO_NOT_TRACK) != 0) =
          decide (flags / 2 ^ 6 % 2 = 1) from by
        rw [APRS.FLAGS_DO_NOT_TRACK, and_single_bit]]
  · intro s
    rw [Naviter._parse_id_string, naviterIdLayout]
    refine congrArg _ ?_
    funext flags
    rw [show (flags &&& Naviter.FLAGS_AIRCRAFT_TYPE) >>> 10 =
          flags / 2 ^ 10 % 16 from by
        rw [Naviter.FLAGS_AIRCRAFT_TYPE, show (15 : Nat) = 2 ^ 4 - 1 from rfl,
          and_mask_div_mod]
        norm_num,
      show (flags &&& Naviter.FLAGS_ADDRESS_TYPE) >>> 4 =
          flags / 2 ^ 4 % 64 from by
        rw [Naviter.FLAGS_ADDRESS_TYPE, show (63 : Nat) = 2 ^ 6 - 1 from rfl,
          and_mask_div_mod]
        norm_num,
      show ((flags &&& Naviter.FLAGS_STEALTH) != 0) =
          decide (flags / 2 ^ 15 % 2 = 1) from by
        rw [Naviter.FLAGS_STEALTH, and_single_bit],
      show ((flags &&& Naviter.FLAGS_DO_NOT_TRACK) != 0) =
          decide (flags / 2 ^ 14 % 2 = 1) from by
        rw [Naviter.FLAGS_DO_NOT_TRACK, and_single_bit]]

/-- Witness for Claim C6: the layout equivalence and the enumeration-failure
clause applied at concrete inputs. -/
theorem id_string_flag_layout_witness :
    APRS._parse_id_string ("06DF0A52".toList) = aprsIdLayout ("06DF0A52".toList)
  ∧ Naviter._parse_id_string ("1C4007220E".toList) =
      naviterIdLayout ("1C4007220E".toList)
  ∧ addressType? 63 = none := by
  exact ⟨id_string_flag_layout.1 _, id_string_flag_layout.2.1 _,
    id_string_flag_layout.2.2.2.2.1 63 (by decide) (by decide)⟩

/-! ## Comment decoding (`APRS._parse_comment` / `Naviter._parse_comment`) -/

/-- The value stored by the `gps` comment field. -/
structure GpsQuality where
  horizontal : Nat
  vertical : Nat
deriving DecidableEq

/-- The partial record produced by `_parse_comment`: one optional slot per
Python dict key, plus the `_update` refinement list (each entry records its
target field and the digit closed over by
`_get_location_update_func`) and the accumulating `other_devices` list. -/
structure CommentData where
  update_entries : List (Str × Nat) := []
  uid : Option Str := none
  stealth : Option Bool := none
  do_not_track : Option Bool := none
  aircraft_type : Option AirplaneType := none
  address_type : Option AddressType := none
  vertical_speed : Option ℚ := none
  turn_rate : Option ℚ := none
  flight_level : Option ℚ := none
  signal_to_noise_ratio : Option ℚ := none
  error_count : Option Int := none
  frequency_offset : Option ℚ := none
  gps_quality : Option GpsQuality := none
  flarm_software : Option Str := none
  flarm_id : Option Str := none
  power_ratio : Option ℚ := none
  other_devices : List Str := []
  flarm_hardware : Option Nat := none
deriving DecidableEq

/-- One iteration of the field loop of `APRS._parse_comment` (parser.py
lines 284-337): the prefix/suffix branch chain, in source order, applied to
a single space-separated field. -/
def APRS.processField (data : CommentData) (field : Str) : Option CommentData :=
  if startsW ['!'] field ∧ endsW ['!'] field then do
    let c2 ← field.get? 2
    let c3 ← field.get? 3
    let lat_dig ← digitVal? c2
    let lon_dig ← digitVal? c3
    some { data with update_entries := data.update_entries ++
            [(("latitude".toList), lat_dig), (("longitude".toList), lon_dig)] }
  else if startsW ("id".toList) field then do
    let idd ← APRS._parse_id_string (field.drop 2)
    some { data with
      uid := some idd.uid,
      stealth := some idd.stealth,
      do_not_track := some idd.do_not_track,
      aircraft_type := some idd.aircraft_type,
      address_type := some idd.address_type }
  else if endsW ("fpm".toList) field then do
    let v ← pyInt? (dropRight 3 field)
    some { data with vertical_speed := some ((v : ℚ) * FEET_TO_METERS) }
  else if endsW ("rot".toList) field then do
    let v ← pyDec? (dropRight 3 field)
    some { data with turn_rate := some (v * HPM_TO_DEGS) }
  else if startsW ("FL".toList) field then do
    let v ← pyDec? (field.drop 2)
    some { data with flight_level := some v }
  else if endsW ("dB".toList) field then do
    let v ← pyDec? (dropRight 2 field)
    some { data with signal_to_noise_ratio := some v }
  else if endsW ['e'] field then do
    let v ← pyInt? (dropRight 1 field)
    some { data with error_count := some v }
  else if endsW ("kHz".toList) field then do
    let v ← pyDec? (dropRight 3 field)
    some { data with frequency_offset := some v }
  else if startsW ("gps".toList) field then do
    let c5 ← field.get? 5
    let c3 ← field.get? 3
    let v ← digitVal? c5
    let hq ← digitVal? c3
    some { data with gps_quality := some ⟨hq, v⟩ }
  else if startsW ['s'] field then
    some { data with flarm_software := some (field.drop 1) }
  else if startsW ['r'] field then
    some { data with flarm_id := some (field.drop 1) }
  else if endsW ("dBm".toList) field then do
    let v ← pyDec? (dropRight 3 field)
    some { data with power_ratio := some v }
  else if startsW ("hear".toList) field then
    some { data with other_devices := data.other_devices ++ [field.drop 4] }
  else if startsW ['h'] field then do
    let v ← pyHex? (field.drop 1)
    some { data with flarm_hardware := some v }
  else some data

/-- `APRS._parse_comment` (parser.py lines 274-337): the comment is split on
spaces and each field folded through the branch chain; a `ValueError` from
any field conversion aborts the whole parse. -/
def APRS._parse_comment (comment : Str) : Option CommentData :=
  (pySplitChar ' ' comment).foldlM APRS.processField {}

/-- One iteration of the field loop of `Naviter._parse_comment` (parser.py
lines 382-409): only the refinement, id, vertical-speed and turn-rate
branches exist; the id string is decoded with the Naviter layout. -/
def Naviter.processField (data : CommentData) (field : Str) :
    Option CommentData :=
  if startsW ['!'] field ∧ endsW ['!'] field then do
    let c2 ← field.get? 2
    let c3 ← field.get? 3
    let lat_dig ← digitVal? c2
    let lon_dig ← digitVal? c3
    some { data with update_entries := data.update_entries ++
            [(("latitude".toList), lat_dig), (("longitude".toList), lon_dig)] }
  else if startsW ("id".toList) field then do
    let idd ← Naviter._parse_id_string (field.drop 2)
    some { data with
      uid := some idd.uid,
      stealth := some idd.stealth,
      do_not_track := some idd.do_not_track,
      aircraft_type := some idd.aircraft_type,
      address_type := some idd.address_type }
  else if endsW ("fpm".toList) field then do
    let v ← pyInt? (dropRight 3 field)
    some { data with vertical_speed := some ((v : ℚ) * FEET_TO_METERS) }
  else if endsW ("rot".toList) field then do
    let v ← pyDec? (dropRight 3 field)
    some { data with turn_rate := some (v * HPM_TO_DEGS) }
  else some data

/-- `Naviter._parse_comment` (parser.py lines 372-409). -/
def Naviter._parse_comment (comment : Str) : Option CommentData :=
  (pySplitChar ' ' comment).foldlM Naviter.processField {}

theorem endsW_append (u t : Str) : endsW u (t ++ u) = true :=
  List.isSuffixOf_iff_suffix.2 ⟨t, rfl⟩

theorem endsW_append_ne {u w : Str} (t : Str) (hlen : u.length = w.length)
    (hne : u ≠ w) : endsW u (t ++ w) = false := by
  rw [endsW]
  by_contra hcon
  rw [Bool.not_eq_false, List.isSuffixOf_iff_suffix] at hcon
  obtain ⟨p, hp⟩ := hcon
  exact hne (List.append_inj_right' hp hlen)

theorem dropRight_append (s u : Str) : dropRight u.length (s ++ u) = s := by
  rw [dropRight, List.length_append, Nat.add_sub_cancel]
  exact List.take_left s u

theorem pyNat?_head {s : Str} {v : Nat} (h : pyNat? s = some v) :
    ∃ c rest, s = c :: rest ∧ '0' ≤ c ∧ c ≤ '9' := by
  cases s with
  | nil => simp [pyNat?] at h
  | cons c rest =>
    refine ⟨c, rest, rfl, ?_⟩
    rw [pyNat?, if_neg (by simp), List.foldlM_cons] at h
    by_contra hc
    rw [digitVal?, if_neg hc] at h
    simp at h

theorem pyInt?_head {s : Str} {v : Int} (h : pyInt? s = some v) :
    ∃ c rest, s = c :: rest ∧ (c = '-' ∨ c = '+' ∨ ('0' ≤ c ∧ c ≤ '9')) := by
  cases s with
  | nil =>
    rw [pyInt?.eq_def] at h
    simp [pyNat?] at h
  | cons c rest =>
    by_cases h1 : c = '-'
    · exact ⟨c, rest, rfl, Or.inl h1⟩
    by_cases h2 : c = '+'
    · exact ⟨c, rest, rfl, Or.inr (Or.inl h2)⟩
    have hred : pyInt? (c :: rest) = (pyNat? (c :: rest)).map (fun n => (n : Int)) := by
      rw [pyInt?.eq_def]
      split
      · simp_all
      · simp_all
      · rfl
    rw [hred] at h
    rcases hpn : pyNat? (c :: rest) with _ | m
    · rw [hpn] at h
      simp at h
    · obtain ⟨c', rest', heq, hdig⟩ := pyNat?_head hpn
      injection heq with e1 e2
      subst e1
      subst e2
      exact ⟨c, rest, rfl, Or.inr (Or.inr hdig)⟩

theorem pyDecCore?_head {s : Str} {v : ℚ} (h : pyDecCore? s = some v) :
    ∃ c rest, s = c :: rest ∧ (c = '.' ∨ ('0' ≤ c ∧ c ≤ '9')) := by
  cases s with
  | nil =>
    rw [pyDecCore?] at h
    simp [List.span, List.span.loop, pyNat?] at h
  | cons c rest =>
    refine ⟨c, rest, rfl, ?_⟩
    by_cases hdot : c = '.'
    · exact Or.inl hdot
    refine Or.inr ?_
    rw [pyDecCore?, List.span_eq_take_drop,
      List.takeWhile_cons_of_pos (by simpa using hdot),
      List.dropWhile_cons_of_pos (by simpa using hdot)] at h
    by_contra hdig
    have hd : digitVal? c = none := by rw [digitVal?, if_neg hdig]
    rcases hdw : rest.dropWhile (fun ch => ch ≠ '.') with _ | ⟨d, fp⟩
    · rw [hdw] at h
      dsimp only at h
      rw [pyNat?, if_neg (by simp), List.foldlM_cons] at h
      simp [hd] at h
    · rw [hdw] at h
      dsimp only at h
      rw [if_neg (by simp)] at h
      split at h
      · simp at h
      · rw [if_neg (by simp)] at h
        rw [pyNat?, if_neg (by simp), List.foldlM_cons] at h
        simp [hd] at h

theorem pyDec?_head {s : Str} {v : ℚ} (h : pyDec? s = some v) :
    ∃ c rest, s = c :: rest ∧
      (c = '-' ∨ c = '+' ∨ c = '.' ∨ ('0' ≤ c ∧ c ≤ '9')) := by
  cases s with
  | nil =>
    rw [pyDec?.eq_def] at h
    obtain ⟨c, rest, heq, -⟩ := pyDecCore?_head h
    simp at heq
  | cons c rest =>
    by_cases h1 : c = '-'
    · exact ⟨c, rest, rfl, Or.inl h1⟩
    by_cases h2 : c = '+'
    · exact ⟨c, rest, rfl, Or.inr (Or.inl h2)⟩
    have hred : pyDec? (c :: rest) = pyDecCore? (c :: rest) := by
      rw [pyDec?.eq_def]
      split
      · simp_all
      · simp_all
      · rfl
    rw [hred] at h
    obtain ⟨c', rest', heq, hd⟩ := pyDecCore?_head h
    injection heq with e1 e2
    subst e1
    subst e2
    rcases hd with hdot | hdig
    · exact ⟨c, rest, rfl, Or.inr (Or.inr (Or.inl hdot))⟩
    · exact ⟨c, rest, rfl, Or.inr (Or.inr (Or.inr hdig))⟩

theorem startsW_cons_ne {p c : Char} {ps t : Str} (h : ¬ p = c) :
    startsW (p :: ps) (c :: t) = false := by
  simp [startsW, List.isPrefixOf, h]

theorem sign_digit_head {c : Char}
    (hc : c = '-' ∨ c = '+' ∨ c = '.' ∨ ('0' ≤ c ∧ c ≤ '9')) :
    ¬ c = '!' ∧ ¬ c = 'i' := by
  rcases hc with h | h | h | h
  · subst h
    exact ⟨by decide, by decide⟩
  · subst h
    exact ⟨by decide, by decide⟩
  · subst h
    exact ⟨by decide, by decide⟩
  · constructor <;> (intro he; subst he; revert h; decide)

/-- Claim C8: a comment token `<int>fpm` decodes to a vertical speed of the
signed integer times 0.3048 (feet/min to m/s, so `'+079fpm'` gives 24.0792 ≈
24.08), and a token `<decimal>rot` decodes to a turn rate of the signed
decimal times 3 (half-turns/min to deg/s, so `'-0.6rot'` gives exactly
-1.8); identically in the APRS and Naviter comment decoders. -/
theorem comment_fpm_rot_spec :
    (∀ (s : Str) (v : Int) (d : CommentData), pyInt? s = some v →
      APRS.processField d (s ++ ("fpm".toList)) =
        some { d with vertical_speed := some ((v : ℚ) * FEET_TO_METERS) })
  ∧ (∀ (s : Str) (v : Int) (d : CommentData), pyInt? s = some v →
      Naviter.processField d (s ++ ("fpm".toList)) =
        some { d with vertical_speed := some ((v : ℚ) * FEET_TO_METERS) })
  ∧ (∀ (s : Str) (q : ℚ) (d : CommentData), pyDec? s = some q →
      APRS.processField d (s ++ ("rot".toList)) =
        some { d with turn_rate := some (q * HPM_TO_DEGS) })
  ∧ (∀ (s : Str) (q : ℚ) (d : CommentData), pyDec? s = some q →
      Naviter.processField d (s ++ ("rot".toList)) =
        some { d with turn_rate := some (q * HPM_TO_DEGS) })
  ∧ APRS._parse_comment ("+079fpm".toList) =
      some { vertical_speed := some ((79 : ℚ) * FEET_TO_METERS) }
  ∧ |(79 : ℚ) * FEET_TO_METERS - 24.08| ≤ 1 / 100
  ∧ APRS._parse_comment ("-0.6rot".toList) =
      some { turn_rate := some ((-0.6 : ℚ) * HPM_TO_DEGS) }
  ∧ (-0.6 : ℚ) * HPM_TO_DEGS = -(9 / 5) := by
  have hfpmA : ∀ (s : Str) (v : Int) (d : CommentData), pyInt? s = some v →
      APRS.processField d (s ++ ("fpm".toList)) =
        some { d with vertical_speed := some ((v : ℚ) * FEET_TO_METERS) } := by
    intro s v d hpy
    obtain ⟨c, rest, rfl, hc⟩ := pyInt?_head hpy
    have hb := sign_digit_head (c := c) (by tauto)
    have hdr : dropRight 3 ((c :: rest) ++ ("fpm".toList)) = c :: rest := by
      rw [show (3 : Nat) = ("fpm".toList : Str).length from by decide]
      exact dropRight_append _ _
    rw [APRS.processField,
      if_neg (fun hand => by
        have h1 := hand.1
        rw [List.cons_append, startsW_cons_ne (Ne.symm hb.1)] at h1
        exact Bool.false_ne_true h1),
      if_neg (fun hand => by
        rw [List.cons_append, show (("id".toList) : Str) = 'i' :: ("d".toList)
          from by decide, startsW_cons_ne (Ne.symm hb.2)] at hand
        exact Bool.false_ne_true hand),
      if_pos (endsW_append ("fpm".toList) (c :: rest)), hdr, hpy]
    rfl
  have hfpmN : ∀ (s : Str) (v : Int) (d : CommentData), pyInt? s = some v →
      Naviter.processField d (s ++ ("fpm".toList)) =
        some { d with vertical_speed := some ((v : ℚ) * FEET_TO_METERS) } := by
    intro s v d hpy
    obtain ⟨c, rest, rfl, hc⟩ := pyInt?_head hpy
    have hb := sign_digit_head (c := c) (by tauto)
    have hdr : dropRight 3 ((c :: rest) ++ ("fpm".toList)) = c :: rest := by
      rw [show (3 : Nat) = ("fpm".toList : Str).length from by decide]
      exact dropRight_append _ _
    rw [Naviter.processField,
      if_neg (fun hand => by
        have h1 := hand.1
        rw [List.cons_append, startsW_cons_ne (Ne.symm hb.1)] at h1
        exact Bool.false_ne_true h1),
      if_neg (fun hand => by
        rw [List.cons_append, show (("id".toList) : Str) = 'i' :: ("d".toList)
          from by decide, startsW_cons_ne (Ne.symm hb.2)] at hand
        exact Bool.false_ne_true hand),
      if_pos (endsW_append ("fpm".toList) (c :: rest)), hdr, hpy]
    rfl
  have hrotA : ∀ (s : Str) (q : ℚ) (d : CommentData), pyDec? s = some q →
      APRS.processField d (s ++ ("rot".toList)) =
        some { d with turn_rate := some (q * HPM_TO_DEGS) } := by
    intro s q d hpy
    obtain ⟨c, rest, rfl, hc⟩ := pyDec?_head hpy
    have hb := sign_digit_head hc
    have hs3 : endsW ("fpm".toList) ((c :: rest) ++ ("rot".toList)) = false :=
      endsW_append_ne _ (by decide) (by decide)
    have hdr : dropRight 3 ((c :: rest) ++ ("rot".toList)) = c :: rest := by
      rw [show (3 : Nat) = ("rot".toList : Str).length from by decide]
      exact dropRight_append _ _
    rw [APRS.processField,
      if_neg (fun hand => by
        have h1 := hand.1
        rw [List.cons_append, startsW_cons_ne (Ne.symm hb.1)] at h1
        exact Bool.false_ne_true h1),
      if_neg (fun hand => by
        rw [List.cons_append, show (("id".toList) : Str) = 'i' :: ("d".toList)
          from by decide, startsW_cons_ne (Ne.symm hb.2)] at hand
        exact Bool.false_ne_true hand),
      if_neg (fun hand => by
        rw [hs3] at hand
        exact Bool.false_ne_true hand),
      if_pos (endsW_append ("rot".toList) (c :: rest)), hdr, hpy]
    rfl
  have hrotN : ∀ (s : Str) (q : ℚ) (d : CommentData), pyDec? s = some q →
      Naviter.processField d (s ++ ("rot".toList)) =
        some { d with turn_rate := some (q * HPM_TO_DEGS) } := by
    intro s q d hpy
    obtain ⟨c, rest, rfl, hc⟩ := pyDec?_head hpy
    have hb := sign_digit_head hc
    have hs3 : endsW ("fpm".toList) ((c :: rest) ++ ("rot".toList)) = false :=
      endsW_append_ne _ (by decide) (by decide)
    have hdr : dropRight 3 ((c :: rest) ++ ("rot".toList)) = c :: rest := by
      rw [show (3 : Nat) = ("rot".toList : Str).length from by decide]
      exact dropRight_append _ _
    rw [Naviter.processField,
      if_neg (fun hand => by
        have h1 := hand.1
        rw [List.cons_append, startsW_cons_ne (Ne.symm hb.1)] at h1
        exact Bool.false_ne_true h1),
      if_neg (fun hand => by
        rw [List.cons_append, show (("id".toList) : Str) = 'i' :: ("d".toList)
          from by decide, startsW_cons_ne (Ne.symm hb.2)] at hand
        exact Bool.false_ne_true hand),
      if_neg (fun hand => by
        rw [hs3] at hand
        exact Bool.false_ne_true hand),
      if_pos (endsW_append ("rot".toList) (c :: rest)), hdr, hpy]
    rfl
  refine ⟨hfpmA, hfpmN, hrotA, hrotN, ?_, ?_, ?_, ?_⟩
  · rw [APRS._parse_comment,
      show pySplitChar ' ' ("+079fpm".toList) = [("+079fpm".toList)] from by
        decide,
      List.foldlM_cons,
      show ("+079fpm".toList : Str) = ("+079".toList) ++ ("fpm".toList) from by
        decide,
      hfpmA ("+079".toList) 79 {} (by decide)]
    simp only [List.foldlM_nil, Option.bind, Bind.bind]
    norm_num [CommentData.mk.injEq]
  · rw [abs_sub_le_iff]
    constructor <;> norm_num [FEET_TO_METERS]
  · have hdec : pyDec? ("-0.6".toList) = some (-((0 : ℚ) + (6 : ℚ) / 10 ^ 1)) := by
      rw [show pyDec? ("-0.6".toList) =
          (pyDecCore? ("0.6".toList)).map (fun q => -q) from rfl,
        pyDecCore_eval ("0.6".toList) ("0".toList) ("6".toList) 0 6 1
          (by decide) (by decide) (by decide) (by decide) (by decide)
          (by decide) (by decide)]
      simp
    rw [APRS._parse_comment,
      show pySplitChar ' ' ("-0.6rot".toList) = [("-0.6rot".toList)] from by
        decide,
      List.foldlM_cons,
      show ("-0.6rot".toList : Str) = ("-0.6".toList) ++ ("rot".toList) from by
        decide,
      hrotA ("-0.6".toList) (-((0 : ℚ) + (6 : ℚ) / 10 ^ 1)) {} hdec]
    simp only [Option.bind, Bind.bind, List.foldlM_nil]
    norm_num [CommentData.mk.injEq, HPM_TO_DEGS]
  · norm_num [HPM_TO_DEGS]

/-- Witness for Claim C8: the universal clauses of `comment_fpm_rot_spec`
applied to the concrete tokens `+079fpm` and `-0.6rot`. -/
theorem comment_fpm_rot_spec_witness :
    APRS.processField {} (("+079".toList) ++ ("fpm".toList)) =
      some { vertical_speed := some (((79 : Int) : ℚ) * FEET_TO_METERS) }
  ∧ Naviter.processField {} (("+079".toList) ++ ("fpm".toList)) =
      some { vertical_speed := some (((79 : Int) : ℚ) * FEET_TO_METERS) }
  ∧ Naviter.processField {} (("-0.6".toList) ++ ("rot".toList)) =
      some { turn_rate := some (-((0 : ℚ) + (6 : ℚ) / 10 ^ 1) * HPM_TO_DEGS) } := by
  have hdec : pyDec? ("-0.6".toList) = some (-((0 : ℚ) + (6 : ℚ) / 10 ^ 1)) := by
    rw [show pyDec? ("-0.6".toList) =
        (pyDecCore? ("0.6".toList)).map (fun q => -q) from rfl,
      pyDecCore_eval ("0.6".toList) ("0".toList) ("6".toList) 0 6 1
        (by decide) (by decide) (by decide) (by decide) (by decide)
        (by decide) (by decide)]
    simp
  exact ⟨comment_fpm_rot_spec.1 ("+079".toList) 79 {} (by decide),
    comment_fpm_rot_spec.2.1 ("+079".toList) 79 {} (by decide),
    comment_fpm_rot_spec.2.2.2.1 ("-0.6".toList) _ {} hdec⟩
